import Mathlib

/-!
Verification of PyTorch-Radial-Basis-Function-Layer.

Shallow embedding of `Torch RBF/torch_rbf.py` over the reals:
tensors become functions out of `Fin`, `torch.exp`, `torch.log`,
elementwise `.pow(2)` and `.pow(0.5)` (on nonnegative arguments) become
`Real.exp`, `Real.log`, `(· ^ 2)` and `Real.sqrt`, and the failure modes of
the surrounding framework (tensor allocation, `expand`, dict lookup) become
`Except` values over an explicit error type.
-/

namespace TorchRBF

/-! ### Basis function library (torch_rbf.py, lines 107-151)

Each Python definition `phi = ...; return phi` is translated literally,
with `torch.ones_like(alpha)` rendered as `1`.  The Python constants
`3**0.5` and `5**0.5` become `Real.sqrt 3` and `Real.sqrt 5`. -/

noncomputable def gaussian (alpha : ℝ) : ℝ := Real.exp (-1 * alpha ^ 2)

def linear (alpha : ℝ) : ℝ := alpha

def quadratic (alpha : ℝ) : ℝ := alpha ^ 2

noncomputable def inverse_quadratic (alpha : ℝ) : ℝ := 1 / (1 + alpha ^ 2)

noncomputable def multiquadric (alpha : ℝ) : ℝ := Real.sqrt (1 + alpha ^ 2)

noncomputable def inverse_multiquadric (alpha : ℝ) : ℝ := 1 / Real.sqrt (1 + alpha ^ 2)

noncomputable def spline (alpha : ℝ) : ℝ := alpha ^ 2 * Real.log (alpha + 1)

noncomputable def poisson_one (alpha : ℝ) : ℝ := (alpha - 1) * Real.exp (-alpha)

/-- The source line is
`phi = ((alpha - 2*torch.ones_like(alpha)) / 2*torch.ones_like(alpha)) * alpha * torch.exp(-alpha)`.
Python `/` and `*` are left-associative, so the parenthesised factor is
`((alpha - 2*1) / 2) * 1`; Lean's `/` and `*` associate the same way, so the
expression below parses identically. -/
noncomputable def poisson_two (alpha : ℝ) : ℝ :=
  (alpha - 2 * 1) / 2 * 1 * alpha * Real.exp (-alpha)

/-- The closed form given for `poisson two` in the specification table:
`((alpha - 2) / 2) * alpha * exp(-alpha)`.  Stated from the spec's words, to
be compared with the source-derived `poisson_two`. -/
noncomputable def poisson_two_spec (alpha : ℝ) : ℝ :=
  (alpha - 2) / 2 * alpha * Real.exp (-alpha)

noncomputable def matern32 (alpha : ℝ) : ℝ :=
  (1 + Real.sqrt 3 * alpha) * Real.exp (-Real.sqrt 3 * alpha)

noncomputable def matern52 (alpha : ℝ) : ℝ :=
  (1 + Real.sqrt 5 * alpha + 5 / 3 * alpha ^ 2) * Real.exp (-Real.sqrt 5 * alpha)

/-! ### Claims C3, C7, C8 about the basis functions alone -/

/-- C3: for every real `alpha ≥ 0` (indeed for every real), the
`poisson_two` of the code — with its precedence quirk
`(alpha - 2*1)/2*1 * alpha * exp(-alpha)` — returns the value of the spec's
closed form `((alpha - 2) / 2) * alpha * exp(-alpha)`: the stray `*1`
factors are multiplicatively inert, so the two expressions coincide. -/
theorem poisson_two_matches_spec (alpha : ℝ) (h : 0 ≤ alpha) :
    poisson_two alpha = poisson_two_spec alpha := by
  rw [poisson_two, poisson_two_spec]
  ring

theorem poisson_two_matches_spec_witness :
    0 ≤ (1 : ℝ) ∧ poisson_two 1 = poisson_two_spec 1 :=
  ⟨by norm_num, poisson_two_matches_spec 1 (by norm_num)⟩

/-- C7: at scaled distance `alpha = 0` the basis functions take exactly the
documented values: `gaussian 0 = 1`, `linear 0 = 0`, `quadratic 0 = 0`,
`inverse_quadratic 0 = 1`, `multiquadric 0 = 1`, `inverse_multiquadric 0 = 1`,
`spline 0 = 0`, `matern32 0 = 1`, `matern52 0 = 1`. -/
theorem basis_values_at_zero :
    gaussian 0 = 1 ∧ linear 0 = 0 ∧ quadratic 0 = 0 ∧
    inverse_quadratic 0 = 1 ∧ multiquadric 0 = 1 ∧
    inverse_multiquadric 0 = 1 ∧ spline 0 = 0 ∧
    matern32 0 = 1 ∧ matern52 0 = 1 := by
  refine ⟨?_, rfl, ?_, ?_, ?_, ?_, ?_, ?_, ?_⟩
  · simp [gaussian]
  · simp [quadratic]
  · norm_num [inverse_quadratic]
  · norm_num [multiquadric]
  · norm_num [inverse_multiquadric]
  · simp [spline]
  · simp [matern32]
  · simp [matern52]

/-- C8: on the domain `alpha ≥ 0`, `gaussian` is strictly decreasing while
`linear` and `quadratic` are strictly increasing: for all `0 ≤ a < b`,
`gaussian a > gaussian b`, `linear a < linear b` and
`quadratic a < quadratic b`. -/
theorem basis_monotonicity :
    (∀ a b : ℝ, 0 ≤ a → a < b → gaussian b < gaussian a) ∧
    (∀ a b : ℝ, 0 ≤ a → a < b → linear a < linear b) ∧
    (∀ a b : ℝ, 0 ≤ a → a < b → quadratic a < quadratic b) := by
  refine ⟨fun a b ha hab => ?_, fun a b ha hab => hab, fun a b ha hab => ?_⟩
  · have hsq : a ^ 2 < b ^ 2 := by nlinarith
    have : -1 * b ^ 2 < -1 * a ^ 2 := by nlinarith
    exact Real.exp_lt_exp.mpr this
  · have : a ^ 2 < b ^ 2 := by nlinarith
    simpa [quadratic] using this

theorem basis_monotonicity_witness :
    (0 : ℝ) ≤ 0 ∧ (0 : ℝ) < 1 ∧ gaussian 1 < gaussian 0 ∧
    linear 0 < linear 1 ∧ quadratic 0 < quadratic 1 :=
  ⟨le_rfl, by norm_num,
    basis_monotonicity.1 0 1 le_rfl (by norm_num),
    basis_monotonicity.2.1 0 1 le_rfl (by norm_num),
    basis_monotonicity.2.2 0 1 le_rfl (by norm_num)⟩

/-! ### Error taxonomy (spec section 7)

`InvalidArgument` stands for the framework error raised when a tensor is
allocated with a negative size, `ShapeMismatch` for the `expand` failure on
an incompatible input shape, `UnknownBasisFunction` for a `KeyError` on the
basis-function dictionary. -/

inductive RBFError where
  | InvalidArgument
  | ShapeMismatch
  | UnknownBasisFunction
deriving DecidableEq, Repr

/-! ### Catalog (torch_rbf.py, lines 153-169) -/

/-- The eleven keys of the dictionary, in source order. -/
def catalogNames : List String :=
  ["gaussian", "linear", "quadratic", "inverse quadratic", "multiquadric",
   "inverse multiquadric", "spline", "poisson one", "poisson two",
   "matern32", "matern52"]

/-- The dictionary literal returned by `basis_func_dict`, as an association
list in source order. -/
noncomputable def basis_func_dict : List (String × (ℝ → ℝ)) :=
  [("gaussian", gaussian), ("linear", linear), ("quadratic", quadratic),
   ("inverse quadratic", inverse_quadratic), ("multiquadric", multiquadric),
   ("inverse multiquadric", inverse_multiquadric), ("spline", spline),
   ("poisson one", poisson_one), ("poisson two", poisson_two),
   ("matern32", matern32), ("matern52", matern52)]

/-- Python `basis_func_dict()[name]`: association-list lookup, with a missing
key surfacing as `UnknownBasisFunction` (a `KeyError` in Python). -/
noncomputable def dictGet (name : String) : Except RBFError (ℝ → ℝ) :=
  match basis_func_dict.lookup name with
  | some f => Except.ok f
  | none => Except.error RBFError.UnknownBasisFunction

/-- C4: the catalog lookup succeeds for each of the eleven documented names
exactly as spelled (with literal spaces), and fails with
`UnknownBasisFunction` on every other name. -/
theorem catalog_complete :
    (∀ n ∈ catalogNames, ∃ f, dictGet n = Except.ok f) ∧
    (∀ n, n ∉ catalogNames → dictGet n = Except.error RBFError.UnknownBasisFunction) := by
  constructor
  · intro n hn
    fin_cases hn <;> exact ⟨_, rfl⟩
  · intro n hn
    simp only [catalogNames, List.mem_cons, List.not_mem_nil, or_false, not_or] at hn
    obtain ⟨h1, h2, h3, h4, h5, h6, h7, h8, h9, h10, h11⟩ := hn
    simp [dictGet, basis_func_dict, List.lookup,
      beq_eq_false_iff_ne.mpr h1, beq_eq_false_iff_ne.mpr h2,
      beq_eq_false_iff_ne.mpr h3, beq_eq_false_iff_ne.mpr h4,
      beq_eq_false_iff_ne.mpr h5, beq_eq_false_iff_ne.mpr h6,
      beq_eq_false_iff_ne.mpr h7, beq_eq_false_iff_ne.mpr h8,
      beq_eq_false_iff_ne.mpr h9, beq_eq_false_iff_ne.mpr h10,
      beq_eq_false_iff_ne.mpr h11]

theorem catalog_complete_witness :
    (∃ f, dictGet "gaussian" = Except.ok f) ∧
    dictGet "nonexistent" = Except.error RBFError.UnknownBasisFunction :=
  ⟨catalog_complete.1 "gaussian" (by simp [catalogNames]),
   catalog_complete.2 "nonexistent" (by simp [catalogNames])⟩

/-! ### The RBF layer (torch_rbf.py, lines 6-101)

A layer holds `in_features`, `out_features`, the parameter tensors
`centers : (out_features, in_features)` and `log_sigmas : (out_features)`,
and the chosen basis function.  Tensors are functions out of `Fin`. -/

structure RBF where
  in_features : Nat
  out_features : Nat
  centers : Fin out_features → Fin in_features → ℝ
  log_sigmas : Fin out_features → ℝ
  basis_func : ℝ → ℝ

/-- `reset_parameters`: `nn.init.normal_(self.centers, 0, 1)` draws fresh
values for `centers` — modelled by the ambient entropy `r`, indexed by
(row, column) — and `nn.init.constant_(self.log_sigmas, 0)` zeroes
`log_sigmas`. -/
noncomputable def RBF.reset_parameters (l : RBF) (r : Nat → Nat → ℝ) : RBF :=
  { l with centers := fun j k => r j.val k.val, log_sigmas := fun _ => 0 }

/-- The layer state produced by a successful `__init__` with the given
(already validated, nonnegative) dimensions: the two parameter tensors are
allocated with shapes `(out_features, in_features)` and `(out_features)`
and then filled by `reset_parameters`. -/
noncomputable def RBF.make (inF outF : Nat) (f : ℝ → ℝ) (r : Nat → Nat → ℝ) : RBF :=
  RBF.reset_parameters
    { in_features := inF, out_features := outF,
      centers := fun j k => r j.val k.val, log_sigmas := fun _ => 0,
      basis_func := f } r

/-- `RBF.__init__(in_features, out_features, basis_func)`.  The Python
arguments are unconstrained integers; the body performs no explicit
validation, so the only failure is `torch.Tensor(out_features, in_features)`
(and `torch.Tensor(out_features)`) rejecting a negative size, modelled as
`InvalidArgument`.  A size of zero is accepted by the allocator and yields
empty parameter tensors. -/
noncomputable def RBF.init (inF outF : Int) (f : ℝ → ℝ) (r : Nat → Nat → ℝ) :
    Except RBFError RBF :=
  if 0 ≤ outF ∧ 0 ≤ inF then
    Except.ok (RBF.make inF.toNat outF.toNat f r)
  else
    Except.error RBFError.InvalidArgument

/-- `tensor.expand` semantics on the last dimension, the one place
`forward` can fail: a dimension of size `L` expands to size `D` when
`L = D` (identity) or `L = 1` (broadcast); every other combination raises
a shape error. -/
def expandVec (L D : Nat) : Option ((Fin L → ℝ) → Fin D → ℝ) :=
  if h : L = D then
    some (fun v k => v ⟨k.val, by omega⟩)
  else if h1 : L = 1 then
    some (fun v _ => v ⟨0, by omega⟩)
  else
    none

/-- `RBF.forward(input)` for an `N × L` input batch:
`size = (N, out_features, in_features)`;
`x = input.unsqueeze(1).expand(size)` (the only fallible step: the last
dimension `L` must expand to `in_features`);
`c = centers.unsqueeze(0).expand(size)`;
`distances = (x - c).pow(2).sum(-1).pow(0.5) / exp(log_sigmas).unsqueeze(0)`;
returns `basis_func(distances)`. -/
noncomputable def RBF.forward (l : RBF) {N L : Nat} (input : Fin N → Fin L → ℝ) :
    Except RBFError (Fin N → Fin l.out_features → ℝ) :=
  match expandVec L l.in_features with
  | none => Except.error RBFError.ShapeMismatch
  | some e =>
      let x : Fin N → Fin l.out_features → Fin l.in_features → ℝ :=
        fun i _ k => e (input i) k
      let c : Fin N → Fin l.out_features → Fin l.in_features → ℝ :=
        fun _ j k => l.centers j k
      let distances : Fin N → Fin l.out_features → ℝ := fun i j =>
        Real.sqrt (∑ k, (x i j k - c i j k) ^ 2) / Real.exp (l.log_sigmas j)
      Except.ok (fun i j => l.basis_func (distances i j))

/-- State-passing form of the `forward` method: the body of `forward` reads
`self.out_features`, `self.in_features`, `self.centers`, `self.log_sigmas`
and `self.basis_func` and assigns to none of them, so the embedding returns
the layer state alongside the result. -/
noncomputable def RBF.forwardS (l : RBF) {N L : Nat} (input : Fin N → Fin L → ℝ) :
    RBF × Except RBFError (Fin N → Fin l.out_features → ℝ) :=
  (l, l.forward input)

/-! ### Helper lemmas about `expandVec` -/

theorem expandVec_self (D : Nat) : expandVec D D = some (fun v => v) := by
  unfold expandVec
  rw [dif_pos rfl]

theorem expandVec_broadcast (D : Nat) (h : D ≠ 1) :
    expandVec 1 D = some (fun v _ => v ⟨0, Nat.zero_lt_one⟩) := by
  unfold expandVec
  rw [dif_neg (fun hh => h hh.symm), dif_pos rfl]

theorem expandVec_none (L D : Nat) (hD : L ≠ D) (h1 : L ≠ 1) :
    expandVec L D = none := by
  unfold expandVec
  rw [dif_neg hD, dif_neg h1]

/-! ### Concrete layers and inputs used by the witnesses -/

noncomputable def wLayer : RBF :=
  { in_features := 2, out_features := 1, centers := fun _ _ => 0,
    log_sigmas := fun _ => 0, basis_func := linear }

noncomputable def wInput : Fin 1 → Fin 2 → ℝ := fun _ _ => 3

noncomputable def wInput1 : Fin 1 → Fin 1 → ℝ := fun _ _ => 3

noncomputable def wInput3 : Fin 1 → Fin 3 → ℝ := fun _ _ => 0

/-! ### Claims C1, C2, C10 about `forward` -/

/-- C1: for a layer with `in_features = D > 0` and `out_features = M > 0`
and an `N × D` input batch (`N ≥ 1`), `forward` succeeds and returns the
`N × M` matrix whose entry `(i, j)` is
`basis_func (sqrt (∑ k, (input i k - centers j k)^2) / exp (log_sigmas j))`.
The output shape `N × M` is carried by the type of the returned matrix. -/
theorem forward_ok_formula (l : RBF) (hD : 0 < l.in_features)
    (hM : 0 < l.out_features) {N : Nat} (hN : 1 ≤ N)
    (input : Fin N → Fin l.in_features → ℝ) :
    l.forward input = Except.ok (fun i j =>
      l.basis_func (Real.sqrt (∑ k, (input i k - l.centers j k) ^ 2) /
        Real.exp (l.log_sigmas j))) := by
  unfold RBF.forward
  rw [expandVec_self]

theorem forward_ok_formula_witness :
    wLayer.forward wInput = Except.ok (fun i j =>
      wLayer.basis_func (Real.sqrt (∑ k, (wInput i k - wLayer.centers j k) ^ 2) /
        Real.exp (wLayer.log_sigmas j))) :=
  forward_ok_formula wLayer (by decide) (by decide) (by decide) wInput

/-- C2 counterexample: the claim "forward always fails with `ShapeMismatch`
whenever the input vector length differs from `in_features`" is false:
`wLayer` has `in_features = 2`, yet a batch of length-1 vectors is accepted
(the `expand` step broadcasts the size-1 dimension) and `forward` does not
return `ShapeMismatch`. -/
theorem forward_broadcast_not_mismatch :
    wLayer.in_features = 2 ∧
    wLayer.forward wInput1 ≠ Except.error RBFError.ShapeMismatch := by
  refine ⟨rfl, ?_⟩
  unfold RBF.forward
  rw [expandVec_broadcast wLayer.in_features (by decide)]
  exact fun hc => Except.noConfusion hc

/-- C2 (amended): calling `forward` with an input vector length that is
neither `in_features` nor `1` always fails with `ShapeMismatch` (and in
particular never truncates or pads); a length of exactly `1` is instead
broadcast by `expand`. -/
theorem forward_mismatch_error (l : RBF) {N L : Nat}
    (input : Fin N → Fin L → ℝ) (hD : L ≠ l.in_features) (h1 : L ≠ 1) :
    l.forward input = Except.error RBFError.ShapeMismatch := by
  unfold RBF.forward
  rw [expandVec_none L l.in_features hD h1]

theorem forward_mismatch_error_witness :
    wLayer.forward wInput3 = Except.error RBFError.ShapeMismatch :=
  forward_mismatch_error wLayer wInput3 (by decide) (by decide)

/-- C10: for a layer with `in_features > 1`, `forward` on a batch of
length-1 vectors succeeds: `expand` broadcasts the size-1 dimension, so the
output entry `(i, j)` is computed as if the input vector were its single
scalar `input i 0` repeated `in_features` times. -/
theorem forward_broadcast_formula (l : RBF) (h : 1 < l.in_features)
    {N : Nat} (input : Fin N → Fin 1 → ℝ) :
    l.forward input = Except.ok (fun i j =>
      l.basis_func
        (Real.sqrt (∑ k, (input i ⟨0, Nat.zero_lt_one⟩ - l.centers j k) ^ 2) /
          Real.exp (l.log_sigmas j))) := by
  unfold RBF.forward
  rw [expandVec_broadcast l.in_features (by omega)]

theorem forward_broadcast_formula_witness :
    wLayer.forward wInput1 = Except.ok (fun i j =>
      wLayer.basis_func
        (Real.sqrt (∑ k, (wInput1 i ⟨0, Nat.zero_lt_one⟩ - wLayer.centers j k) ^ 2) /
          Real.exp (wLayer.log_sigmas j))) :=
  forward_broadcast_formula wLayer (by decide) wInput1

/-! ### Claims C5, C6 about construction -/

/-- C5 counterexample: the claim "constructing with `in_features ≤ 0` or
`out_features ≤ 0` fails with `InvalidArgument`" is false at
`in_features = 0`: the tensor allocator accepts size 0, so
`RBF.init 0 1 ...` succeeds with empty centers rather than failing. -/
theorem init_zero_dim_ok :
    RBF.init 0 1 linear (fun _ _ => 0) =
      Except.ok (RBF.make 0 1 linear (fun _ _ => 0)) ∧
    RBF.init 0 1 linear (fun _ _ => 0) ≠
      Except.error RBFError.InvalidArgument := by
  constructor
  · unfold RBF.init
    rw [if_pos ⟨by norm_num, le_rfl⟩]
    rfl
  · unfold RBF.init
    rw [if_pos ⟨by norm_num, le_rfl⟩]
    exact fun hc => Except.noConfusion hc

/-- C5 (amended): construction fails with `InvalidArgument` when
`in_features < 0` or `out_features < 0` (the tensor allocator rejects
negative sizes), succeeds for all nonnegative dimensions — zero included,
yielding empty parameter tensors — and has no other error path: every call
is one of these two outcomes. -/
theorem init_invalid_iff (inF outF : Int) (f : ℝ → ℝ) (r : Nat → Nat → ℝ) :
    (inF < 0 ∨ outF < 0 →
      RBF.init inF outF f r = Except.error RBFError.InvalidArgument) ∧
    (0 ≤ inF → 0 ≤ outF →
      RBF.init inF outF f r = Except.ok (RBF.make inF.toNat outF.toNat f r)) := by
  constructor
  · intro h
    unfold RBF.init
    rw [if_neg]
    intro hc
    rcases h with h | h
    · exact absurd hc.2 (not_le.mpr h)
    · exact absurd hc.1 (not_le.mpr h)
  · intro h1 h2
    unfold RBF.init
    rw [if_pos ⟨h2, h1⟩]

theorem init_invalid_iff_witness :
    RBF.init (-1) 1 linear (fun _ _ => 0) =
      Except.error RBFError.InvalidArgument ∧
    RBF.init 2 1 linear (fun _ _ => 0) =
      Except.ok (RBF.make 2 1 linear (fun _ _ => 0)) :=
  ⟨(init_invalid_iff (-1) 1 linear (fun _ _ => 0)).1 (Or.inl (by norm_num)),
   (init_invalid_iff 2 1 linear (fun _ _ => 0)).2 (by norm_num) (by norm_num)⟩

/-- C6: for `in_features > 0` and `out_features > 0`, construction succeeds
and the resulting layer records both dimensions, has `centers` of shape
`out_features × in_features` and `log_sigmas` of length `out_features`
(both shapes carried by the field types `Fin out_features → Fin in_features → ℝ`
and `Fin out_features → ℝ`), with every entry of `log_sigmas` exactly `0`,
so every bandwidth `exp (log_sigmas j)` equals `exp 0 = 1`. -/
theorem init_shapes (inF outF : Int) (hi : 0 < inF) (ho : 0 < outF)
    (f : ℝ → ℝ) (r : Nat → Nat → ℝ) :
    RBF.init inF outF f r = Except.ok (RBF.make inF.toNat outF.toNat f r) ∧
    (RBF.make inF.toNat outF.toNat f r).in_features = inF.toNat ∧
    (RBF.make inF.toNat outF.toNat f r).out_features = outF.toNat ∧
    ((RBF.make inF.toNat outF.toNat f r).log_sigmas = fun _ => (0 : ℝ)) ∧
    (∀ j, Real.exp ((RBF.make inF.toNat outF.toNat f r).log_sigmas j) = 1) ∧
    (RBF.make inF.toNat outF.toNat f r).basis_func = f := by
  refine ⟨?_, rfl, rfl, rfl, fun j => Real.exp_zero, rfl⟩
  unfold RBF.init
  rw [if_pos ⟨le_of_lt ho, le_of_lt hi⟩]

theorem init_shapes_witness :
    RBF.init 2 1 linear (fun _ _ => 0) =
      Except.ok (RBF.make 2 1 linear (fun _ _ => 0)) ∧
    (RBF.make 2 1 linear (fun _ _ => 0)).in_features = 2 ∧
    Real.exp ((RBF.make 2 1 linear (fun _ _ => 0)).log_sigmas ⟨0, Nat.zero_lt_one⟩) = 1 :=
  ⟨(init_shapes 2 1 (by norm_num) (by norm_num) linear (fun _ _ => 0)).1,
   (init_shapes 2 1 (by norm_num) (by norm_num) linear (fun _ _ => 0)).2.1,
   (init_shapes 2 1 (by norm_num) (by norm_num) linear (fun _ _ => 0)).2.2.2.2.1
     ⟨0, Nat.zero_lt_one⟩⟩

/-! ### Claim C9: forward is observationally pure -/

/-- C9: a call to `forward` leaves the layer's state unchanged — the method
body assigns to no attribute, so in the state-passing embedding `forwardS`
the resulting state is the original layer, with `in_features`,
`out_features`, `centers`, `log_sigmas` and `basis_func` all identical —
and its only effect is producing the `forward` output value.  This holds
for every call, hence in particular for every successful one. -/
theorem forward_frame (l : RBF) {N L : Nat} (input : Fin N → Fin L → ℝ) :
    (l.forwardS input).1 = l ∧
    (l.forwardS input).1.in_features = l.in_features ∧
    (l.forwardS input).1.out_features = l.out_features ∧
    (l.forwardS input).1.centers = l.centers ∧
    (l.forwardS input).1.log_sigmas = l.log_sigmas ∧
    (l.forwardS input).1.basis_func = l.basis_func ∧
    (l.forwardS input).2 = l.forward input :=
  ⟨rfl, rfl, rfl, rfl, rfl, rfl, rfl⟩

end TorchRBF
